import Mathlib

/-!
Verification of the mentorship-scheduling backend.

Shallow embedding of the repository:
  * the persistence records (Mentor, MentorTime, Request) and the relational
    store as explicit lists in a `DB` state;
  * the mentor service (src/services/mentor_service.py), translated directly;
  * the mentor-time service and student service, whose code is not in the
    reviewed slice (only their routers call them), modelled from the spec
    (§4.7, §4.8, §7) — each such definition is marked `Modelled from the spec:`;
  * the two routers (src/presentations/routers/mentor_time_router.py and
    src/presentations/routers/student_router.py): every handler's try/except
    structure is translated into a route function on the outcome of the
    service call, and a full endpoint function that first resolves the
    bearer-token dependency, then runs the service on the database state and
    maps the result to an HTTP response.

Exceptions are an explicit `Exc` type: `valueError` mirrors Python's
ValueError (used by the services to signal not-found), `httpException`
mirrors fastapi.HTTPException (an already-formed HTTP-level error), and
`otherError` stands for every other Exception.
-/

set_option linter.unusedVariables false

namespace MentorApp

/-- A mentor record: table `mentor(id, telegram_id, name, info)`.
UUIDs are modelled as naturals. -/
structure Mentor where
  id : Nat
  telegram_id : String
  name : String
  info : String
deriving DecidableEq

/-- An availability slot: table `mentor_time(id, day, time_start, time_end, mentor_id)`.
`day` is the Python int of the body; times of day are seconds since midnight. -/
structure MentorTime where
  id : Nat
  day : Int
  time_start : Nat
  time_end : Nat
  mentor_id : Nat
deriving DecidableEq

/-- A contact request: table
`request(id, call_type, time_sended, mentor_id, guest_id, description, call_time, response)`.
Timestamps are modelled as naturals; `call_time` is optional (absent for
message requests). -/
structure Request where
  id : Nat
  call_type : Bool
  time_sended : Nat
  mentor_id : Nat
  guest_id : Nat
  description : String
  call_time : Option Nat
  response : Int
deriving DecidableEq

/-- The relational store: one list per table, plus a counter standing for the
UUID generator (fresh ids are drawn from it). -/
structure DB where
  mentors : List Mentor
  mentor_times : List MentorTime
  requests : List Request
  next_id : Nat
deriving DecidableEq

/-- Python exceptions as seen by the routers' except clauses:
ValueError, fastapi.HTTPException, and any other Exception. -/
inductive Exc where
  | valueError (msg : String)
  | httpException (status : Nat) (detail : String)
  | otherError (msg : String)
deriving DecidableEq

/-- `str(e)` of an exception, used by the routers when building a 400 detail.
(starlette's HTTPException stringifies as "status: detail".) -/
def Exc.message : Exc → String
  | .valueError msg => msg
  | .httpException status detail => toString status ++ ": " ++ detail
  | .otherError msg => msg

/- ------------------------------------------------------------------
Request bodies (pydantic models of the routers, from the source).
A pydantic `Optional[...] = None` field of the two update bodies is
modelled as an `Option`: `none` means the caller omitted the field, `some`
that the caller supplied it — this is exactly what the routers read back
with `dict(exclude_unset=True)`.  `RequestUpdateRequest.call_time` is
doubly optional because the stored column itself is nullable.
------------------------------------------------------------------ -/

/-- Body of POST /mentor_time/ (class CreateMentorTimeRequestPostRequest). -/
structure CreateMentorTimeRequestPostRequest where
  day : Int
  time_start : Nat
  time_end : Nat
  mentor_id : Nat
deriving DecidableEq

/-- Body of PATCH /mentor_time/{slot_id} (class MentorTimeUpdateRequest):
any subset of day / time_start / time_end / mentor_id. -/
structure MentorTimeUpdateRequest where
  day : Option Int
  time_start : Option Nat
  time_end : Option Nat
  mentor_id : Option Nat
deriving DecidableEq

/-- Body of POST /student/message/ (class SendMessageRequestPostRequest):
only `mentor_id` and `description` — note that it has no guest_id field. -/
structure SendMessageRequestPostRequest where
  mentor_id : Nat
  description : String
deriving DecidableEq

/-- Body of POST /student/call/ (class SendCallRequestPostRequest). -/
structure SendCallRequestPostRequest where
  mentor_id : Nat
  description : String
  call_time : Nat
deriving DecidableEq

/-- Body of PATCH /student/{request_id} (class RequestUpdateRequest):
any subset of call_type / mentor_id / guest_id / description / call_time /
response.  The outer `Option` on each field is presence (exclude_unset);
the inner `Option` of `call_time` is the nullability of the stored column. -/
structure RequestUpdateRequest where
  call_type : Option Bool
  mentor_id : Option Nat
  guest_id : Option Nat
  description : Option String
  call_time : Option (Option Nat)
  response : Option Int
deriving DecidableEq

/- ------------------------------------------------------------------
Repositories.  Not part of the reviewed slice; modelled from the spec
(§4.3–§4.5) as thin accessors over the lists of `DB`.
------------------------------------------------------------------ -/

/-- Modelled from the spec: MentorRepository.get_mentor_by_id (§4.3,
GetById(id) → the Mentor record or absent if no match). -/
def MentorRepository.get_mentor_by_id (db : DB) (mentor_id : Nat) : Option Mentor :=
  db.mentors.find? (fun m => m.id == mentor_id)

/-- Modelled from the spec: MentorRepository.get_mentor_by_tg_id (§4.3,
GetByTelegramId(tg_id) → the Mentor record or absent if no match). -/
def MentorRepository.get_mentor_by_tg_id (db : DB) (tg_id : String) : Option Mentor :=
  db.mentors.find? (fun m => m.telegram_id == tg_id)

/-- Modelled from the spec: MentorRepository.get_all_mentors (§4.3, GetAll). -/
def MentorRepository.get_all_mentors (db : DB) : List Mentor :=
  db.mentors

/-- Modelled from the spec: MentorRepository.create_mentor (§4.3,
Create(tg_id, name, info) → new Mentor id); an unconditional insert. -/
def MentorRepository.create_mentor (db : DB) (tg_id name info : String) : Nat × DB :=
  let new_id := db.next_id
  (new_id,
   { db with
       mentors := db.mentors ++ [{ id := new_id, telegram_id := tg_id, name := name, info := info }]
       next_id := db.next_id + 1 })

/- ------------------------------------------------------------------
Mentor service — translated from src/services/mentor_service.py.
The loguru calls are modelled as an explicit list of emitted log lines.
------------------------------------------------------------------ -/

/-- `MentorService.get_all_mentors` (mentor_service.py lines 16-23):
returns all mentors from the repository; logs a warning when empty. -/
def MentorService.get_all_mentors (db : DB) : List Mentor × List String :=
  let mentors := MentorRepository.get_all_mentors db
  if mentors.isEmpty then (mentors, ["Менторы не найдены"]) else (mentors, [])

/-- `MentorService.create_mentor` (mentor_service.py lines 25-40):
delegates to the repository and logs the consecration. -/
def MentorService.create_mentor (db : DB) (tg_id name info : String) : (Nat × DB) × List String :=
  let result := MentorRepository.create_mentor db tg_id name info
  (result, ["Товарищ " ++ name ++ " успешно посвящён в менторы."])

/-- `MentorService.get_mentor_by_id` (mentor_service.py lines 42-49):
fetches from the repository; when the result is absent it logs a warning
and still returns the absent value — it never raises. -/
def MentorService.get_mentor_by_id (db : DB) (mentor_id : Nat) : Option Mentor × List String :=
  let mentor := MentorRepository.get_mentor_by_id db mentor_id
  if mentor.isNone then
    (mentor, ["Товарища ментора с ID " ++ toString mentor_id ++ " не удалось найти."])
  else
    (mentor, [])

/-- `MentorService.get_mentor_by_tg_id` (mentor_service.py lines 51-58):
same shape as `get_mentor_by_id`, keyed by telegram id. -/
def MentorService.get_mentor_by_tg_id (db : DB) (tg_id : String) : Option Mentor × List String :=
  let mentor := MentorRepository.get_mentor_by_tg_id db tg_id
  if mentor.isNone then
    (mentor, ["Товарища ментора с телегой " ++ tg_id ++ " не удалось найти."])
  else
    (mentor, [])

/- ------------------------------------------------------------------
Mentor-time service.  Its code is not in the reviewed slice; every
operation below is modelled from the spec (§4.7, §7, §9).
------------------------------------------------------------------ -/

/-- Modelled from the spec: the message of the invalid-argument-style error
the mentor-time service raises when a slot id does not exist (§4.7/§7; the
exact text is not in the reviewed slice). -/
def mentorTimeNotFoundMsg : String := "MentorTime not found"

/-- Modelled from the spec: the message of the invalid-argument-style error
the student service raises when a request id does not exist (§4.8/§7). -/
def requestNotFoundMsg : String := "Request not found"

/-- Modelled from the spec: MentorTimeService.get_all_mentor_time (§4.7). -/
def MentorTimeService.get_all_mentor_time (db : DB) : List MentorTime :=
  db.mentor_times

/-- Modelled from the spec: MentorTimeService.create_mentor_time (§4.7,
validates nothing, creates the slot, returns its id). -/
def MentorTimeService.create_mentor_time (db : DB) (day : Int)
    (time_start time_end : Nat) (mentor_id : Nat) : Nat × DB :=
  let new_id := db.next_id
  (new_id,
   { db with
       mentor_times := db.mentor_times ++
         [{ id := new_id, day := day, time_start := time_start,
            time_end := time_end, mentor_id := mentor_id }]
       next_id := db.next_id + 1 })

/-- Modelled from the spec: MentorTimeService.get_all_mentor_time_by_mentor_id
(§4.7, all slots owned by that mentor). -/
def MentorTimeService.get_all_mentor_time_by_mentor_id (db : DB) (mentor_id : Nat) : List MentorTime :=
  db.mentor_times.filter (fun s => s.mentor_id == mentor_id)

/-- Modelled from the spec: MentorTimeService.get_call_times (§4.7): callable
moments within the mentor's windows for the day, excluding moments already
consumed by an existing call request.  The discretization granularity is an
open question of the spec (§9); the model takes the slot start boundaries. -/
def MentorTimeService.get_call_times (db : DB) (day : Int) (mentor_id : Nat) : List Nat :=
  ((db.mentor_times.filter (fun s => s.mentor_id == mentor_id && s.day == day)).map
      (fun s => s.time_start)).filter
    (fun t => ! db.requests.any (fun r => r.mentor_id == mentor_id && r.call_time == some t))

/-- Modelled from the spec: MentorTimeService.count_requests_for_time (§4.7,
the count of Request records for that mentor whose call_time equals the
given timestamp). -/
def MentorTimeService.count_requests_for_time (db : DB) (mentor_id : Nat) (request_time : Nat) : Nat :=
  (db.requests.filter (fun r => r.mentor_id == mentor_id && r.call_time == some request_time)).length

/-- Modelled from the spec: MentorTimeService.check_time_reservation (§4.7,
true iff at least one Request exists for that mentor with call_time equal to
the given timestamp). -/
def MentorTimeService.check_time_reservation (db : DB) (mentor_id : Nat) (request_time : Nat) : Bool :=
  db.requests.any (fun r => r.mentor_id == mentor_id && r.call_time == some request_time)

/-- Applying a slot patch to a stored slot: a field present in the patch
takes the supplied value, a field absent from the patch keeps the stored
value; the primary key is not a patch field. -/
def applyMentorTimePatch (s : MentorTime) (p : MentorTimeUpdateRequest) : MentorTime :=
  { s with
      day := p.day.getD s.day
      time_start := p.time_start.getD s.time_start
      time_end := p.time_end.getD s.time_end
      mentor_id := p.mentor_id.getD s.mentor_id }

/-- Modelled from the spec: MentorTimeService.update_mentor_time (§4.7,
applies only the fields present in the patch to the existing slot; fails
with a not-found condition, raised as a ValueError, if the id does not
exist). -/
def MentorTimeService.update_mentor_time (db : DB) (slot_id : Nat)
    (patch : MentorTimeUpdateRequest) : Except Exc DB :=
  if db.mentor_times.any (fun s => s.id == slot_id) then
    .ok { db with
            mentor_times := db.mentor_times.map
              (fun s => if s.id == slot_id then applyMentorTimePatch s patch else s) }
  else
    .error (.valueError mentorTimeNotFoundMsg)

/-- Modelled from the spec: MentorTimeService.delete_mentor_time (§4.7,
removes the slot; fails with a not-found condition, raised as a ValueError,
if it does not exist). -/
def MentorTimeService.delete_mentor_time (db : DB) (slot_id : Nat) : Except Exc DB :=
  if db.mentor_times.any (fun s => s.id == slot_id) then
    .ok { db with mentor_times := db.mentor_times.filter (fun s => s.id != slot_id) }
  else
    .error (.valueError mentorTimeNotFoundMsg)

/- ------------------------------------------------------------------
Student service.  Its code is not in the reviewed slice; every operation
below is modelled from the spec (§4.8, §7, §9).  `now` is the current
time, passed explicitly.  The default of `response` is the documented
placeholder 0 (§9).
------------------------------------------------------------------ -/

/-- Modelled from the spec: StudentService.get_all_requests (§4.8). -/
def StudentService.get_all_requests (db : DB) : List Request :=
  db.requests

/-- Modelled from the spec: StudentService.send_message_request (§4.8,
creates a Request with call_type=false, time_sended = now, call_time
absent, default response; returns its id). -/
def StudentService.send_message_request (db : DB) (mentor_id guest_id : Nat)
    (description : String) (now : Nat) : Nat × DB :=
  let new_id := db.next_id
  (new_id,
   { db with
       requests := db.requests ++
         [{ id := new_id, call_type := false, time_sended := now,
            mentor_id := mentor_id, guest_id := guest_id,
            description := description, call_time := none, response := 0 }]
       next_id := db.next_id + 1 })

/-- Modelled from the spec: StudentService.send_call_request (§4.8, creates
a Request with call_type=true, time_sended = now, the supplied call_time,
default response; returns its id; no availability check is performed). -/
def StudentService.send_call_request (db : DB) (mentor_id guest_id : Nat)
    (description : String) (call_time : Nat) (now : Nat) : Nat × DB :=
  let new_id := db.next_id
  (new_id,
   { db with
       requests := db.requests ++
         [{ id := new_id, call_type := true, time_sended := now,
            mentor_id := mentor_id, guest_id := guest_id,
            description := description, call_time := some call_time, response := 0 }]
       next_id := db.next_id + 1 })

/-- Modelled from the spec: StudentService.get_request_by_id (§4.8, the
Request or absent — not an error — if missing). -/
def StudentService.get_request_by_id (db : DB) (request_id : Nat) : Option Request :=
  db.requests.find? (fun r => r.id == request_id)

/-- Applying a request patch to a stored request: a field present in the
patch takes the supplied value, a field absent keeps the stored value; the
primary key is not a patch field. -/
def applyRequestPatch (r : Request) (p : RequestUpdateRequest) : Request :=
  { r with
      call_type := p.call_type.getD r.call_type
      mentor_id := p.mentor_id.getD r.mentor_id
      guest_id := p.guest_id.getD r.guest_id
      description := p.description.getD r.description
      call_time := p.call_time.getD r.call_time
      response := p.response.getD r.response }

/-- Modelled from the spec: StudentService.update_request (§4.8, applies
only the fields present in the patch; fails with a not-found condition,
raised as a ValueError, if the id does not exist). -/
def StudentService.update_request (db : DB) (request_id : Nat)
    (patch : RequestUpdateRequest) : Except Exc DB :=
  if db.requests.any (fun r => r.id == request_id) then
    .ok { db with
            requests := db.requests.map
              (fun r => if r.id == request_id then applyRequestPatch r patch else r) }
  else
    .error (.valueError requestNotFoundMsg)

/-- Modelled from the spec: StudentService.delete_request (§4.8, removes
the Request; fails with a not-found condition, raised as a ValueError, if
the id does not exist). -/
def StudentService.delete_request (db : DB) (request_id : Nat) : Except Exc DB :=
  if db.requests.any (fun r => r.id == request_id) then
    .ok { db with requests := db.requests.filter (fun r => r.id != request_id) }
  else
    .error (.valueError requestNotFoundMsg)

/- ------------------------------------------------------------------
The HTTP layer.  A response is a status code and a JSON body; each body
shape of the routers' response models gets a constructor.
------------------------------------------------------------------ -/

/-- A JSON response body, one constructor per response shape of the two
routers (DTO lists, created id, the mutation `statusOk`, count, boolean
check, request detail, and the error envelope with a detail message). -/
inductive Body where
  | statusOk
  | errDetail (msg : String)
  | idBody (id : Nat)
  | mentorTimesBody (mentor_times : List MentorTime)
  | timesBody (mentor_times : List Nat)
  | countBody (count : Nat)
  | statusBool (status : Bool)
  | requestsBody (requests : List Request)
  | requestDetail (call_type : Bool) (time_sended : Nat) (mentor_id : Nat)
      (guest_id : Nat) (description : String) (call_time : Option Nat) (response : Int)
deriving DecidableEq

/-- An HTTP response: status code plus body. -/
structure HttpResponse where
  status : Nat
  body : Body
deriving DecidableEq

/-- Modelled from the spec: the rejection produced when the bearer-token
dependency `extract_user_id` fails (§4.1: an authentication failure that
short-circuits before any business logic; its exact status is outside the
reviewed slice, modelled as 401). -/
def authFailResponse : HttpResponse := ⟨401, .errDetail "Invalid authentication token"⟩

/- ------------------------------------------------------------------
Route functions, one per handler, translated from the routers' try/except
structure.  Each takes the outcome of the handler's service call chain —
`.ok` with the value the try block goes on to return, or `.error` with the
exception that escaped the call — and produces the HTTP response the
handler's except clauses map it to.
------------------------------------------------------------------ -/

/-- GET /mentor_time/ (mentor_time_router.py get_all, lines 85-110):
200 with the DTO list; `except HTTPException: raise` passes an HTTP-level
error through; any other exception becomes 400 with str(e). -/
def mt_get_all_route (svc : Except Exc (List MentorTime)) : HttpResponse :=
  match svc with
  | .ok mentor_times => ⟨200, .mentorTimesBody mentor_times⟩
  | .error (.httpException status detail) => ⟨status, .errDetail detail⟩
  | .error e => ⟨400, .errDetail e.message⟩

/-- POST /mentor_time/ (mentor_time_router.py create_mentor_time, lines
113-137): 201 with the new id; the only except clause is `except
Exception`, so every escaping exception — HTTPException included — becomes
400 with str(e). -/
def mt_create_route (svc : Except Exc Nat) : HttpResponse :=
  match svc with
  | .ok id => ⟨201, .idBody id⟩
  | .error e => ⟨400, .errDetail e.message⟩

/-- GET /mentor_time/mentor/{mentor_id} (mentor_time_router.py
get_all_by_mentor_id, lines 140-167): same except structure as get_all. -/
def mt_get_all_by_mentor_route (svc : Except Exc (List MentorTime)) : HttpResponse :=
  match svc with
  | .ok mentor_times => ⟨200, .mentorTimesBody mentor_times⟩
  | .error (.httpException status detail) => ⟨status, .errDetail detail⟩
  | .error e => ⟨400, .errDetail e.message⟩

/-- GET /mentor_time/call_times/{mentor_id}/{day} (mentor_time_router.py
get_possible_time, lines 170-193): same except structure as get_all. -/
def mt_call_times_route (svc : Except Exc (List Nat)) : HttpResponse :=
  match svc with
  | .ok mentor_times => ⟨200, .timesBody mentor_times⟩
  | .error (.httpException status detail) => ⟨status, .errDetail detail⟩
  | .error e => ⟨400, .errDetail e.message⟩

/-- GET /mentor_time/count/{mentor_id}/{request_time} (mentor_time_router.py
count_requests, lines 196-219): same except structure as get_all. -/
def mt_count_route (svc : Except Exc Nat) : HttpResponse :=
  match svc with
  | .ok count => ⟨200, .countBody count⟩
  | .error (.httpException status detail) => ⟨status, .errDetail detail⟩
  | .error e => ⟨400, .errDetail e.message⟩

/-- GET /mentor_time/check/{mentor_id}/{request_time} (mentor_time_router.py
check_request, lines 222-245): same except structure as get_all. -/
def mt_check_route (svc : Except Exc Bool) : HttpResponse :=
  match svc with
  | .ok status => ⟨200, .statusBool status⟩
  | .error (.httpException status detail) => ⟨status, .errDetail detail⟩
  | .error e => ⟨400, .errDetail e.message⟩

/-- PATCH /mentor_time/{slot_id} (mentor_time_router.py update_mentor_time,
lines 248-262): success returns `{"status": "ok"}`; `except ValueError`
maps a not-found to 404 with str(ve); any other exception — there is no
HTTPException clause — becomes 400 with str(e). -/
def mt_update_route (svc : Except Exc DB) : HttpResponse :=
  match svc with
  | .ok _ => ⟨200, .statusOk⟩
  | .error (.valueError msg) => ⟨404, .errDetail msg⟩
  | .error e => ⟨400, .errDetail e.message⟩

/-- DELETE /mentor_time/{slot_id} (mentor_time_router.py delete_mentor_time,
lines 265-279): same except structure as update_mentor_time. -/
def mt_delete_route (svc : Except Exc DB) : HttpResponse :=
  match svc with
  | .ok _ => ⟨200, .statusOk⟩
  | .error (.valueError msg) => ⟨404, .errDetail msg⟩
  | .error e => ⟨400, .errDetail e.message⟩

/-- GET /student/ (student_router.py get_all, lines 81-109): 200 with the
DTO list; HTTPException passes through; otherwise 400 with str(e). -/
def st_get_all_route (svc : Except Exc (List Request)) : HttpResponse :=
  match svc with
  | .ok requests => ⟨200, .requestsBody requests⟩
  | .error (.httpException status detail) => ⟨status, .errDetail detail⟩
  | .error e => ⟨400, .errDetail e.message⟩

/-- POST /student/message/ (student_router.py create_message, lines
112-133): 201 with the new id; only `except Exception`, so every escaping
exception becomes 400 with str(e). -/
def st_create_message_route (svc : Except Exc Nat) : HttpResponse :=
  match svc with
  | .ok id => ⟨201, .idBody id⟩
  | .error e => ⟨400, .errDetail e.message⟩

/-- POST /student/call/ (student_router.py create_call, lines 136-159):
same except structure as create_message. -/
def st_create_call_route (svc : Except Exc Nat) : HttpResponse :=
  match svc with
  | .ok id => ⟨201, .idBody id⟩
  | .error e => ⟨400, .errDetail e.message⟩

/-- GET /student/{request_id} (student_router.py get_by_id, lines 162-193):
an absent lookup result raises HTTPException(404, "Запрос не найден"),
which the `except HTTPException: raise` clause re-raises unchanged; a
present result is returned as the detail DTO; any other exception becomes
400 with str(e). -/
def st_get_by_id_route (svc : Except Exc (Option Request)) : HttpResponse :=
  match svc with
  | .ok none => ⟨404, .errDetail "Запрос не найден"⟩
  | .ok (some r) =>
      ⟨200, .requestDetail r.call_type r.time_sended r.mentor_id r.guest_id
              r.description r.call_time r.response⟩
  | .error (.httpException status detail) => ⟨status, .errDetail detail⟩
  | .error e => ⟨400, .errDetail e.message⟩

/-- PATCH /student/{request_id} (student_router.py update_request, lines
196-210): success returns `{"status": "ok"}`; `except ValueError` maps a
not-found to 404 with str(ve); any other exception — there is no
HTTPException clause — becomes 400 with str(e). -/
def st_update_route (svc : Except Exc DB) : HttpResponse :=
  match svc with
  | .ok _ => ⟨200, .statusOk⟩
  | .error (.valueError msg) => ⟨404, .errDetail msg⟩
  | .error e => ⟨400, .errDetail e.message⟩

/-- DELETE /student/{request_id} (student_router.py delete_request, lines
213-227): same except structure as update_request. -/
def st_delete_route (svc : Except Exc DB) : HttpResponse :=
  match svc with
  | .ok _ => ⟨200, .statusOk⟩
  | .error (.valueError msg) => ⟨404, .errDetail msg⟩
  | .error e => ⟨400, .errDetail e.message⟩

/- ------------------------------------------------------------------
Endpoints.  Each one first resolves the bearer-token dependency (`auth` is
the outcome of `Depends(extract_user_id)`: `some user_id` on success,
`none` when validation fails — in which case the handler body never runs
and the state is untouched), then runs the modelled service on the state
and maps the outcome through the handler's route function.  `now` is the
current clock where creation needs it.
------------------------------------------------------------------ -/

/-- GET /mentor_time/ endpoint. -/
def mt_get_all_endpoint (auth : Option Nat) (db : DB) : HttpResponse × DB :=
  match auth with
  | none => (authFailResponse, db)
  | some _ => (mt_get_all_route (.ok (MentorTimeService.get_all_mentor_time db)), db)

/-- POST /mentor_time/ endpoint. -/
def mt_create_endpoint (auth : Option Nat) (body : CreateMentorTimeRequestPostRequest)
    (db : DB) : HttpResponse × DB :=
  match auth with
  | none => (authFailResponse, db)
  | some _ =>
      let result := MentorTimeService.create_mentor_time db body.day body.time_start
        body.time_end body.mentor_id
      (mt_create_route (.ok result.1), result.2)

/-- GET /mentor_time/mentor/{mentor_id} endpoint. -/
def mt_get_all_by_mentor_endpoint (auth : Option Nat) (mentor_id : Nat) (db : DB) :
    HttpResponse × DB :=
  match auth with
  | none => (authFailResponse, db)
  | some _ =>
      (mt_get_all_by_mentor_route
        (.ok (MentorTimeService.get_all_mentor_time_by_mentor_id db mentor_id)), db)

/-- GET /mentor_time/call_times/{mentor_id}/{day} endpoint. -/
def mt_call_times_endpoint (auth : Option Nat) (mentor_id : Nat) (day : Int) (db : DB) :
    HttpResponse × DB :=
  match auth with
  | none => (authFailResponse, db)
  | some _ => (mt_call_times_route (.ok (MentorTimeService.get_call_times db day mentor_id)), db)

/-- GET /mentor_time/count/{mentor_id}/{request_time} endpoint. -/
def mt_count_endpoint (auth : Option Nat) (mentor_id request_time : Nat) (db : DB) :
    HttpResponse × DB :=
  match auth with
  | none => (authFailResponse, db)
  | some _ =>
      (mt_count_route (.ok (MentorTimeService.count_requests_for_time db mentor_id request_time)),
       db)

/-- GET /mentor_time/check/{mentor_id}/{request_time} endpoint. -/
def mt_check_endpoint (auth : Option Nat) (mentor_id request_time : Nat) (db : DB) :
    HttpResponse × DB :=
  match auth with
  | none => (authFailResponse, db)
  | some _ =>
      (mt_check_route (.ok (MentorTimeService.check_time_reservation db mentor_id request_time)),
       db)

/-- PATCH /mentor_time/{slot_id} endpoint. -/
def mt_update_endpoint (auth : Option Nat) (slot_id : Nat) (req : MentorTimeUpdateRequest)
    (db : DB) : HttpResponse × DB :=
  match auth with
  | none => (authFailResponse, db)
  | some _ =>
      match MentorTimeService.update_mentor_time db slot_id req with
      | .ok db2 => (mt_update_route (.ok db2), db2)
      | .error e => (mt_update_route (.error e), db)

/-- DELETE /mentor_time/{slot_id} endpoint. -/
def mt_delete_endpoint (auth : Option Nat) (slot_id : Nat) (db : DB) : HttpResponse × DB :=
  match auth with
  | none => (authFailResponse, db)
  | some _ =>
      match MentorTimeService.delete_mentor_time db slot_id with
      | .ok db2 => (mt_delete_route (.ok db2), db2)
      | .error e => (mt_delete_route (.error e), db)

/-- GET /student/ endpoint. -/
def st_get_all_endpoint (auth : Option Nat) (db : DB) : HttpResponse × DB :=
  match auth with
  | none => (authFailResponse, db)
  | some _ => (st_get_all_route (.ok (StudentService.get_all_requests db)), db)

/-- POST /student/message/ endpoint: the service is called with the
authenticated caller's id as the guest, the body supplies only mentor_id
and description. -/
def st_create_message_endpoint (auth : Option Nat) (body : SendMessageRequestPostRequest)
    (db : DB) (now : Nat) : HttpResponse × DB :=
  match auth with
  | none => (authFailResponse, db)
  | some user_id =>
      let result := StudentService.send_message_request db body.mentor_id user_id
        body.description now
      (st_create_message_route (.ok result.1), result.2)

/-- POST /student/call/ endpoint: as for message creation, the guest is the
authenticated caller. -/
def st_create_call_endpoint (auth : Option Nat) (body : SendCallRequestPostRequest)
    (db : DB) (now : Nat) : HttpResponse × DB :=
  match auth with
  | none => (authFailResponse, db)
  | some user_id =>
      let result := StudentService.send_call_request db body.mentor_id user_id
        body.description body.call_time now
      (st_create_call_route (.ok result.1), result.2)

/-- GET /student/{request_id} endpoint. -/
def st_get_by_id_endpoint (auth : Option Nat) (request_id : Nat) (db : DB) :
    HttpResponse × DB :=
  match auth with
  | none => (authFailResponse, db)
  | some _ => (st_get_by_id_route (.ok (StudentService.get_request_by_id db request_id)), db)

/-- PATCH /student/{request_id} endpoint. -/
def st_update_endpoint (auth : Option Nat) (request_id : Nat) (req : RequestUpdateRequest)
    (db : DB) : HttpResponse × DB :=
  match auth with
  | none => (authFailResponse, db)
  | some _ =>
      match StudentService.update_request db request_id req with
      | .ok db2 => (st_update_route (.ok db2), db2)
      | .error e => (st_update_route (.error e), db)

/-- DELETE /student/{request_id} endpoint. -/
def st_delete_endpoint (auth : Option Nat) (request_id : Nat) (db : DB) : HttpResponse × DB :=
  match auth with
  | none => (authFailResponse, db)
  | some _ =>
      match StudentService.delete_request db request_id with
      | .ok db2 => (st_delete_route (.ok db2), db2)
      | .error e => (st_delete_route (.error e), db)

/-- One constructor per endpoint of the two routers, carrying the path and
body arguments of a call — used to quantify over every endpoint at once. -/
inductive Call where
  | mtGetAll
  | mtCreate (body : CreateMentorTimeRequestPostRequest)
  | mtGetAllByMentor (mentor_id : Nat)
  | mtCallTimes (mentor_id : Nat) (day : Int)
  | mtCount (mentor_id request_time : Nat)
  | mtCheck (mentor_id request_time : Nat)
  | mtUpdate (slot_id : Nat) (body : MentorTimeUpdateRequest)
  | mtDelete (slot_id : Nat)
  | stGetAll
  | stCreateMessage (body : SendMessageRequestPostRequest)
  | stCreateCall (body : SendCallRequestPostRequest)
  | stGetById (request_id : Nat)
  | stUpdate (request_id : Nat) (body : RequestUpdateRequest)
  | stDelete (request_id : Nat)

/-- Dispatching a call to its endpoint. -/
def dispatch (c : Call) (auth : Option Nat) (now : Nat) (db : DB) : HttpResponse × DB :=
  match c with
  | .mtGetAll => mt_get_all_endpoint auth db
  | .mtCreate body => mt_create_endpoint auth body db
  | .mtGetAllByMentor mentor_id => mt_get_all_by_mentor_endpoint auth mentor_id db
  | .mtCallTimes mentor_id day => mt_call_times_endpoint auth mentor_id day db
  | .mtCount mentor_id request_time => mt_count_endpoint auth mentor_id request_time db
  | .mtCheck mentor_id request_time => mt_check_endpoint auth mentor_id request_time db
  | .mtUpdate slot_id body => mt_update_endpoint auth slot_id body db
  | .mtDelete slot_id => mt_delete_endpoint auth slot_id db
  | .stGetAll => st_get_all_endpoint auth db
  | .stCreateMessage body => st_create_message_endpoint auth body db now
  | .stCreateCall body => st_create_call_endpoint auth body db now
  | .stGetById request_id => st_get_by_id_endpoint auth request_id db
  | .stUpdate request_id body => st_update_endpoint auth request_id body db
  | .stDelete request_id => st_delete_endpoint auth request_id db

/- ------------------------------------------------------------------
Sample data used by the witnesses.
------------------------------------------------------------------ -/

/-- A sample slot with id 1. -/
def sampleSlot : MentorTime :=
  { id := 1, day := 0, time_start := 32400, time_end := 36000, mentor_id := 10 }

/-- A sample message-type request with id 2. -/
def sampleRequest : Request :=
  { id := 2, call_type := false, time_sended := 100, mentor_id := 10,
    guest_id := 20, description := "hi", call_time := none, response := 0 }

/-- A sample store holding one slot and one request. -/
def sampleDB : DB :=
  { mentors := [], mentor_times := [sampleSlot], requests := [sampleRequest], next_id := 3 }

/-- The empty store. -/
def emptyDB : DB := { mentors := [], mentor_times := [], requests := [], next_id := 0 }

/-- A sample slot patch supplying only time_end. -/
def samplePatchMT : MentorTimeUpdateRequest :=
  { day := none, time_start := none, time_end := some 39600, mentor_id := none }

/-- A sample request patch supplying only the response code. -/
def samplePatchReq : RequestUpdateRequest :=
  { call_type := none, mentor_id := none, guest_id := none,
    description := none, call_time := none, response := some 1 }

/- ------------------------------------------------------------------
Theorems, one per claim.
------------------------------------------------------------------ -/

/-- C6: every endpoint of both routers resolves the bearer-token dependency
before its handler body runs; when token validation fails the request is
rejected with the authentication failure and the store is completely
untouched — no business-logic or persistence side effect occurs. -/
theorem C6_auth_rejected_before_side_effects (c : Call) (now : Nat) (db : DB) :
    dispatch c none now db = (authFailResponse, db) := by
  cases c <;> rfl

/-- C8: check_time_reservation is true exactly when count_requests_for_time
is positive, i.e. exactly when at least one Request exists for that mentor
whose call_time equals the given timestamp. -/
theorem C8_check_iff_count_pos (db : DB) (mentor_id request_time : Nat) :
    (MentorTimeService.check_time_reservation db mentor_id request_time = true ↔
      0 < MentorTimeService.count_requests_for_time db mentor_id request_time) ∧
    (MentorTimeService.check_time_reservation db mentor_id request_time = true ↔
      ∃ r ∈ db.requests, r.mentor_id = mentor_id ∧ r.call_time = some request_time) := by
  constructor
  · simp [MentorTimeService.check_time_reservation,
      MentorTimeService.count_requests_for_time, List.length_pos_iff_exists_mem,
      List.any_eq_true, List.mem_filter]
  · simp [MentorTimeService.check_time_reservation, List.any_eq_true]

/-- C9: looking up a mentor by an id or a telegram id with no matching
record returns the absent value together with a logged warning — the
operations are total, they never raise, and absent is the successful
outcome. -/
theorem C9_mentor_lookup_absent (db : DB) (mentor_id : Nat) (tg_id : String)
    (hid : ∀ m ∈ db.mentors, m.id ≠ mentor_id)
    (htg : ∀ m ∈ db.mentors, m.telegram_id ≠ tg_id) :
    (MentorService.get_mentor_by_id db mentor_id).1 = none ∧
    (MentorService.get_mentor_by_id db mentor_id).2 ≠ [] ∧
    (MentorService.get_mentor_by_tg_id db tg_id).1 = none ∧
    (MentorService.get_mentor_by_tg_id db tg_id).2 ≠ [] := by
  have h1 : MentorRepository.get_mentor_by_id db mentor_id = none := by
    simp only [MentorRepository.get_mentor_by_id, List.find?_eq_none, beq_iff_eq]
    exact hid
  have h2 : MentorRepository.get_mentor_by_tg_id db tg_id = none := by
    simp only [MentorRepository.get_mentor_by_tg_id, List.find?_eq_none, beq_iff_eq]
    exact htg
  refine ⟨?_, ?_, ?_, ?_⟩ <;>
    simp [MentorService.get_mentor_by_id, MentorService.get_mentor_by_tg_id, h1, h2]

/-- Witness for C9: on the empty store both lookups come back absent with a
log line. -/
theorem C9_mentor_lookup_absent_witness :
    (MentorService.get_mentor_by_id emptyDB 7).1 = none ∧
    (MentorService.get_mentor_by_id emptyDB 7).2 ≠ [] ∧
    (MentorService.get_mentor_by_tg_id emptyDB "tg1").1 = none ∧
    (MentorService.get_mentor_by_tg_id emptyDB "tg1").2 ≠ [] :=
  C9_mentor_lookup_absent emptyDB 7 "tg1" (by simp [emptyDB]) (by simp [emptyDB])

/-- C2: when the student service's lookup returns absent, GET
/student/{request_id} answers 404 with the designated not-found message
("Запрос не найден", the implementation's locale for "Request not found")
as the detail, leaving the store untouched — in particular not a 400. -/
theorem C2_get_by_id_absent_404 (db : DB) (request_id user_id : Nat)
    (h : StudentService.get_request_by_id db request_id = none) :
    st_get_by_id_endpoint (some user_id) request_id db =
      (⟨404, .errDetail "Запрос не найден"⟩, db) ∧
    (st_get_by_id_endpoint (some user_id) request_id db).1.status ≠ 400 := by
  simp [st_get_by_id_endpoint, st_get_by_id_route, h]

/-- Witness for C2: fetching id 3 from the empty store yields the 404. -/
theorem C2_get_by_id_absent_404_witness :
    st_get_by_id_endpoint (some 1) 3 emptyDB =
      (⟨404, .errDetail "Запрос не найден"⟩, emptyDB) ∧
    (st_get_by_id_endpoint (some 1) 3 emptyDB).1.status ≠ 400 :=
  C2_get_by_id_absent_404 emptyDB 3 1 (by simp [StudentService.get_request_by_id, emptyDB])

/-- C4: for every request body and every store, the Request created by the
message and call creation endpoints carries as guest_id exactly the
authenticated caller's user_id; the bodies have no guest_id field, so no
body input can influence it. -/
theorem C4_guest_id_is_authenticated_caller (db : DB) (user_id now : Nat)
    (mbody : SendMessageRequestPostRequest) (cbody : SendCallRequestPostRequest) :
    (∃ r : Request,
        (st_create_message_endpoint (some user_id) mbody db now).2.requests =
          db.requests ++ [r] ∧ r.guest_id = user_id) ∧
    (∃ r : Request,
        (st_create_call_endpoint (some user_id) cbody db now).2.requests =
          db.requests ++ [r] ∧ r.guest_id = user_id) :=
  ⟨⟨_, rfl, rfl⟩, ⟨_, rfl, rfl⟩⟩

/-- C7: POST /student/message/ answers 201 with the new id and appends a
Request with call_type=false, call_time absent, time_sended = now and the
default response; POST /student/call/ answers 201 with the new id and
appends a Request with call_type=true and the supplied call_time. -/
theorem C7_creation_semantics (db : DB) (user_id now : Nat)
    (mbody : SendMessageRequestPostRequest) (cbody : SendCallRequestPostRequest) :
    ((st_create_message_endpoint (some user_id) mbody db now).1.status = 201 ∧
     ∃ r : Request,
       (st_create_message_endpoint (some user_id) mbody db now).2.requests =
         db.requests ++ [r] ∧
       (st_create_message_endpoint (some user_id) mbody db now).1.body = .idBody r.id ∧
       r.call_type = false ∧ r.call_time = none ∧ r.time_sended = now ∧
       r.response = 0 ∧ r.mentor_id = mbody.mentor_id ∧ r.description = mbody.description) ∧
    ((st_create_call_endpoint (some user_id) cbody db now).1.status = 201 ∧
     ∃ r : Request,
       (st_create_call_endpoint (some user_id) cbody db now).2.requests =
         db.requests ++ [r] ∧
       (st_create_call_endpoint (some user_id) cbody db now).1.body = .idBody r.id ∧
       r.call_type = true ∧ r.call_time = some cbody.call_time ∧ r.time_sended = now ∧
       r.response = 0 ∧ r.mentor_id = cbody.mentor_id ∧ r.description = cbody.description) :=
  ⟨⟨rfl, _, rfl, rfl, rfl, rfl, rfl, rfl, rfl, rfl⟩,
   ⟨rfl, _, rfl, rfl, rfl, rfl, rfl, rfl, rfl, rfl⟩⟩

/-- C1: for PATCH and DELETE on /mentor_time/{slot_id} and
/student/{request_id}: a target id that does not exist yields 404 carrying
the service error's message as detail (and no state change); an existing
target yields the success body `{"status": "ok"}`; any escaping failure
other than the not-found ValueError is mapped to 400 by these handlers. -/
theorem C1_update_delete_status_mapping (db : DB) (user_id slot_id request_id : Nat)
    (mtp : MentorTimeUpdateRequest) (rp : RequestUpdateRequest) :
    ((∀ s ∈ db.mentor_times, s.id ≠ slot_id) →
        mt_update_endpoint (some user_id) slot_id mtp db =
          (⟨404, .errDetail mentorTimeNotFoundMsg⟩, db) ∧
        mt_delete_endpoint (some user_id) slot_id db =
          (⟨404, .errDetail mentorTimeNotFoundMsg⟩, db)) ∧
    ((∃ s ∈ db.mentor_times, s.id = slot_id) →
        (mt_update_endpoint (some user_id) slot_id mtp db).1 = ⟨200, .statusOk⟩ ∧
        (mt_delete_endpoint (some user_id) slot_id db).1 = ⟨200, .statusOk⟩) ∧
    ((∀ r ∈ db.requests, r.id ≠ request_id) →
        st_update_endpoint (some user_id) request_id rp db =
          (⟨404, .errDetail requestNotFoundMsg⟩, db) ∧
        st_delete_endpoint (some user_id) request_id db =
          (⟨404, .errDetail requestNotFoundMsg⟩, db)) ∧
    ((∃ r ∈ db.requests, r.id = request_id) →
        (st_update_endpoint (some user_id) request_id rp db).1 = ⟨200, .statusOk⟩ ∧
        (st_delete_endpoint (some user_id) request_id db).1 = ⟨200, .statusOk⟩) ∧
    (∀ e : Exc, (∀ msg, e ≠ .valueError msg) →
        (mt_update_route (.error e)).status = 400 ∧
        (mt_delete_route (.error e)).status = 400 ∧
        (st_update_route (.error e)).status = 400 ∧
        (st_delete_route (.error e)).status = 400) := by
  refine ⟨?_, ?_, ?_, ?_, ?_⟩
  · intro h
    have hany : db.mentor_times.any (fun s => s.id == slot_id) = false := by
      simp only [List.any_eq_false, beq_iff_eq]
      exact h
    constructor <;>
      simp [mt_update_endpoint, mt_delete_endpoint, MentorTimeService.update_mentor_time,
        MentorTimeService.delete_mentor_time, hany, mt_update_route, mt_delete_route]
  · rintro ⟨s, hs, hid⟩
    have hany : db.mentor_times.any (fun s => s.id == slot_id) = true :=
      List.any_eq_true.mpr ⟨s, hs, by simp [hid]⟩
    constructor <;>
      simp [mt_update_endpoint, mt_delete_endpoint, MentorTimeService.update_mentor_time,
        MentorTimeService.delete_mentor_time, hany, mt_update_route, mt_delete_route]
  · intro h
    have hany : db.requests.any (fun r => r.id == request_id) = false := by
      simp only [List.any_eq_false, beq_iff_eq]
      exact h
    constructor <;>
      simp [st_update_endpoint, st_delete_endpoint, StudentService.update_request,
        StudentService.delete_request, hany, st_update_route, st_delete_route]
  · rintro ⟨r, hr, hid⟩
    have hany : db.requests.any (fun r => r.id == request_id) = true :=
      List.any_eq_true.mpr ⟨r, hr, by simp [hid]⟩
    constructor <;>
      simp [st_update_endpoint, st_delete_endpoint, StudentService.update_request,
        StudentService.delete_request, hany, st_update_route, st_delete_route]
  · intro e he
    cases e with
    | valueError msg => exact absurd rfl (he msg)
    | httpException status detail => exact ⟨rfl, rfl, rfl, rfl⟩
    | otherError msg => exact ⟨rfl, rfl, rfl, rfl⟩

/-- Witness for C1: on the sample store, patching the existing slot 1 and
request 2 succeeds with the ok body; patching or deleting the unknown id 99
yields the 404 with the not-found message; a non-ValueError failure at the
patch handler is mapped to 400. -/
theorem C1_update_delete_status_mapping_witness :
    (mt_update_endpoint (some 1) 1 samplePatchMT sampleDB).1 = ⟨200, .statusOk⟩ ∧
    (st_update_endpoint (some 1) 2 samplePatchReq sampleDB).1 = ⟨200, .statusOk⟩ ∧
    mt_update_endpoint (some 1) 99 samplePatchMT sampleDB =
      (⟨404, .errDetail mentorTimeNotFoundMsg⟩, sampleDB) ∧
    st_delete_endpoint (some 1) 99 sampleDB =
      (⟨404, .errDetail requestNotFoundMsg⟩, sampleDB) ∧
    (st_update_route (.error (.otherError "boom"))).status = 400 := by
  have hex := C1_update_delete_status_mapping sampleDB 1 1 2 samplePatchMT samplePatchReq
  have hne := C1_update_delete_status_mapping sampleDB 1 99 99 samplePatchMT samplePatchReq
  refine ⟨(hex.2.1 ?_).1, (hex.2.2.2.1 ?_).1, (hne.1 ?_).1, (hne.2.2.1 ?_).2,
    (hex.2.2.2.2 (.otherError "boom") ?_).2.2.1⟩
  · exact ⟨sampleSlot, by simp [sampleDB], rfl⟩
  · exact ⟨sampleRequest, by simp [sampleDB], rfl⟩
  · intro s hs
    simp [sampleDB, sampleSlot] at hs
    simp [hs, sampleSlot]
  · intro r hr
    simp [sampleDB, sampleRequest] at hr
    simp [hr, sampleRequest]
  · intro msg h
    cases h

/-- C3: a PATCH on an existing slot or request applies exactly the fields
the caller supplied (presence-tracked): every supplied field of the patched
record takes the supplied value, every omitted field keeps its stored
value, and records with other ids survive unchanged. -/
theorem C3_patch_applies_exactly_supplied_fields (db : DB) (slot_id request_id : Nat)
    (mtp : MentorTimeUpdateRequest) (rp : RequestUpdateRequest)
    (s : MentorTime) (hs : s ∈ db.mentor_times) (hsid : s.id = slot_id)
    (r : Request) (hr : r ∈ db.requests) (hrid : r.id = request_id) :
    (∃ db2, MentorTimeService.update_mentor_time db slot_id mtp = .ok db2 ∧
      (∀ t ∈ db.mentor_times, t.id ≠ slot_id → t ∈ db2.mentor_times) ∧
      ∃ s2 ∈ db2.mentor_times, s2.id = slot_id ∧
        (mtp.day = none → s2.day = s.day) ∧
        (∀ v, mtp.day = some v → s2.day = v) ∧
        (mtp.time_start = none → s2.time_start = s.time_start) ∧
        (∀ v, mtp.time_start = some v → s2.time_start = v) ∧
        (mtp.time_end = none → s2.time_end = s.time_end) ∧
        (∀ v, mtp.time_end = some v → s2.time_end = v) ∧
        (mtp.mentor_id = none → s2.mentor_id = s.mentor_id) ∧
        (∀ v, mtp.mentor_id = some v → s2.mentor_id = v)) ∧
    (∃ db2, StudentService.update_request db request_id rp = .ok db2 ∧
      (∀ t ∈ db.requests, t.id ≠ request_id → t ∈ db2.requests) ∧
      ∃ r2 ∈ db2.requests, r2.id = request_id ∧
        (rp.call_type = none → r2.call_type = r.call_type) ∧
        (∀ v, rp.call_type = some v → r2.call_type = v) ∧
        (rp.mentor_id = none → r2.mentor_id = r.mentor_id) ∧
        (∀ v, rp.mentor_id = some v → r2.mentor_id = v) ∧
        (rp.guest_id = none → r2.guest_id = r.guest_id) ∧
        (∀ v, rp.guest_id = some v → r2.guest_id = v) ∧
        (rp.description = none → r2.description = r.description) ∧
        (∀ v, rp.description = some v → r2.description = v) ∧
        (rp.call_time = none → r2.call_time = r.call_time) ∧
        (∀ v, rp.call_time = some v → r2.call_time = v) ∧
        (rp.response = none → r2.response = r.response) ∧
        (∀ v, rp.response = some v → r2.response = v) ∧
        r2.time_sended = r.time_sended) := by
  constructor
  · have hany : db.mentor_times.any (fun t => t.id == slot_id) = true :=
      List.any_eq_true.mpr ⟨s, hs, by simp [hsid]⟩
    have hupd : MentorTimeService.update_mentor_time db slot_id mtp =
        .ok { db with
                mentor_times := db.mentor_times.map
                  (fun t => if t.id == slot_id then applyMentorTimePatch t mtp else t) } := by
      unfold MentorTimeService.update_mentor_time
      rw [hany]
      rfl
    refine ⟨_, hupd, ?_, ?_⟩
    · intro t ht htid
      have : (if t.id == slot_id then applyMentorTimePatch t mtp else t) = t := by
        simp [htid]
      exact this ▸ List.mem_map_of_mem _ ht
    · refine ⟨applyMentorTimePatch s mtp, ?_, ?_⟩
      · have : (if s.id == slot_id then applyMentorTimePatch s mtp else s) =
            applyMentorTimePatch s mtp := by simp [hsid]
        exact this ▸ List.mem_map_of_mem _ hs
      · refine ⟨hsid, ?_, ?_, ?_, ?_, ?_, ?_, ?_, ?_⟩ <;>
          first
            | (intro h; simp [applyMentorTimePatch, h])
            | (intro v h; simp [applyMentorTimePatch, h])
  · have hany : db.requests.any (fun t => t.id == request_id) = true :=
      List.any_eq_true.mpr ⟨r, hr, by simp [hrid]⟩
    have hupd : StudentService.update_request db request_id rp =
        .ok { db with
                requests := db.requests.map
                  (fun t => if t.id == request_id then applyRequestPatch t rp else t) } := by
      unfold StudentService.update_request
      rw [hany]
      rfl
    refine ⟨_, hupd, ?_, ?_⟩
    · intro t ht htid
      have : (if t.id == request_id then applyRequestPatch t rp else t) = t := by
        simp [htid]
      exact this ▸ List.mem_map_of_mem _ ht
    · refine ⟨applyRequestPatch r rp, ?_, ?_⟩
      · have : (if r.id == request_id then applyRequestPatch r rp else r) =
            applyRequestPatch r rp := by simp [hrid]
        exact this ▸ List.mem_map_of_mem _ hr
      · refine ⟨hrid, ?_, ?_, ?_, ?_, ?_, ?_, ?_, ?_, ?_, ?_, ?_, ?_, rfl⟩ <;>
          first
            | (intro h; simp [applyRequestPatch, h])
            | (intro v h; simp [applyRequestPatch, h])

/-- Witness for C3: patching slot 1 of the sample store with only a new
time_end leaves day, time_start and mentor_id as stored; patching request 2
with only a response code leaves every other field as stored. -/
theorem C3_patch_applies_exactly_supplied_fields_witness :
    (∃ db2, MentorTimeService.update_mentor_time sampleDB 1 samplePatchMT = .ok db2 ∧
      (∀ t ∈ sampleDB.mentor_times, t.id ≠ 1 → t ∈ db2.mentor_times) ∧
      ∃ s2 ∈ db2.mentor_times, s2.id = 1 ∧
        (samplePatchMT.day = none → s2.day = sampleSlot.day) ∧
        (∀ v, samplePatchMT.day = some v → s2.day = v) ∧
        (samplePatchMT.time_start = none → s2.time_start = sampleSlot.time_start) ∧
        (∀ v, samplePatchMT.time_start = some v → s2.time_start = v) ∧
        (samplePatchMT.time_end = none → s2.time_end = sampleSlot.time_end) ∧
        (∀ v, samplePatchMT.time_end = some v → s2.time_end = v) ∧
        (samplePatchMT.mentor_id = none → s2.mentor_id = sampleSlot.mentor_id) ∧
        (∀ v, samplePatchMT.mentor_id = some v → s2.mentor_id = v)) ∧
    (∃ db2, StudentService.update_request sampleDB 2 samplePatchReq = .ok db2 ∧
      (∀ t ∈ sampleDB.requests, t.id ≠ 2 → t ∈ db2.requests) ∧
      ∃ r2 ∈ db2.requests, r2.id = 2 ∧
        (samplePatchReq.call_type = none → r2.call_type = sampleRequest.call_type) ∧
        (∀ v, samplePatchReq.call_type = some v → r2.call_type = v) ∧
        (samplePatchReq.mentor_id = none → r2.mentor_id = sampleRequest.mentor_id) ∧
        (∀ v, samplePatchReq.mentor_id = some v → r2.mentor_id = v) ∧
        (samplePatchReq.guest_id = none → r2.guest_id = sampleRequest.guest_id) ∧
        (∀ v, samplePatchReq.guest_id = some v → r2.guest_id = v) ∧
        (samplePatchReq.description = none → r2.description = sampleRequest.description) ∧
        (∀ v, samplePatchReq.description = some v → r2.description = v) ∧
        (samplePatchReq.call_time = none → r2.call_time = sampleRequest.call_time) ∧
        (∀ v, samplePatchReq.call_time = some v → r2.call_time = v) ∧
        (samplePatchReq.response = none → r2.response = sampleRequest.response) ∧
        (∀ v, samplePatchReq.response = some v → r2.response = v) ∧
        r2.time_sended = sampleRequest.time_sended) :=
  C3_patch_applies_exactly_supplied_fields sampleDB 1 2 samplePatchMT samplePatchReq
    sampleSlot (by simp [sampleDB]) rfl
    sampleRequest (by simp [sampleDB]) rfl

/-- C10: the patch bodies of both routers carry no id field, and a
successful PATCH never alters any record's primary key: the list of stored
ids after the update is exactly the list before. -/
theorem C10_patch_preserves_primary_keys (db : DB) (slot_id request_id : Nat)
    (mtp : MentorTimeUpdateRequest) (rp : RequestUpdateRequest) :
    (∀ db2, MentorTimeService.update_mentor_time db slot_id mtp = .ok db2 →
        db2.mentor_times.map MentorTime.id = db.mentor_times.map MentorTime.id) ∧
    (∀ db2, StudentService.update_request db request_id rp = .ok db2 →
        db2.requests.map Request.id = db.requests.map Request.id) := by
  constructor
  · intro db2 h
    rw [MentorTimeService.update_mentor_time] at h
    split at h
    · cases h
      simp only [List.map_map]
      refine List.map_congr_left ?_
      intro t _
      by_cases ht : t.id = slot_id <;> simp [ht, applyMentorTimePatch]
    · cases h
  · intro db2 h
    rw [StudentService.update_request] at h
    split at h
    · cases h
      simp only [List.map_map]
      refine List.map_congr_left ?_
      intro t _
      by_cases ht : t.id = request_id <;> simp [ht, applyRequestPatch]
    · cases h

/-- Witness for C10: patching slot 1 and request 2 of the sample store
leaves both id columns exactly as they were. -/
theorem C10_patch_preserves_primary_keys_witness :
    ((MentorTimeService.update_mentor_time sampleDB 1 samplePatchMT = .ok
        { sampleDB with mentor_times := [{ sampleSlot with time_end := 39600 }] }) ∧
      ({ sampleDB with
          mentor_times := [{ sampleSlot with time_end := 39600 }] } : DB).mentor_times.map
          MentorTime.id = sampleDB.mentor_times.map MentorTime.id) ∧
    ((StudentService.update_request sampleDB 2 samplePatchReq = .ok
        { sampleDB with requests := [{ sampleRequest with response := 1 }] }) ∧
      ({ sampleDB with
          requests := [{ sampleRequest with response := 1 }] } : DB).requests.map
          Request.id = sampleDB.requests.map Request.id) := by
  have h := C10_patch_preserves_primary_keys sampleDB 1 2 samplePatchMT samplePatchReq
  have h1 : MentorTimeService.update_mentor_time sampleDB 1 samplePatchMT = .ok
      { sampleDB with mentor_times := [{ sampleSlot with time_end := 39600 }] } := by
    simp [MentorTimeService.update_mentor_time, sampleDB, sampleSlot, samplePatchMT,
      applyMentorTimePatch]
  have h2 : StudentService.update_request sampleDB 2 samplePatchReq = .ok
      { sampleDB with requests := [{ sampleRequest with response := 1 }] } := by
    simp [StudentService.update_request, sampleDB, sampleRequest, samplePatchReq,
      applyRequestPatch]
  exact ⟨⟨h1, h.1 _ h1⟩, ⟨h2, h.2 _ h2⟩⟩

/-- C5 counterexample: the claim fails at the PATCH /student/{request_id}
handler — an already-formed HTTP-level error (an HTTPException with status
418 and detail "teapot") escaping the service call is not propagated
unchanged but re-wrapped as a generic 400, because that handler has no
HTTPException pass-through clause. -/
theorem C5_counterexample_update_request_rewraps :
    (st_update_route (.error (.httpException 418 "teapot"))).status = 400 ∧
    st_update_route (.error (.httpException 418 "teapot")) ≠
      ⟨418, .errDetail "teapot"⟩ := by
  exact ⟨rfl, by decide⟩

/-- C5 amended: only the handlers with an explicit HTTPException re-raise
clause — the five GET handlers of the mentor-time router and the two GET
handlers of the student router — propagate an already-formed HTTP-level
error unchanged; the POST, PATCH and DELETE handlers of both routers catch
it with their generic Exception clause and re-wrap it as HTTP 400. -/
theorem C5_amended_http_error_passthrough (status : Nat) (detail : String) :
    mt_get_all_route (.error (.httpException status detail)) =
      ⟨status, .errDetail detail⟩ ∧
    mt_get_all_by_mentor_route (.error (.httpException status detail)) =
      ⟨status, .errDetail detail⟩ ∧
    mt_call_times_route (.error (.httpException status detail)) =
      ⟨status, .errDetail detail⟩ ∧
    mt_count_route (.error (.httpException status detail)) =
      ⟨status, .errDetail detail⟩ ∧
    mt_check_route (.error (.httpException status detail)) =
      ⟨status, .errDetail detail⟩ ∧
    st_get_all_route (.error (.httpException status detail)) =
      ⟨status, .errDetail detail⟩ ∧
    st_get_by_id_route (.error (.httpException status detail)) =
      ⟨status, .errDetail detail⟩ ∧
    (mt_create_route (.error (.httpException status detail))).status = 400 ∧
    (mt_update_route (.error (.httpException status detail))).status = 400 ∧
    (mt_delete_route (.error (.httpException status detail))).status = 400 ∧
    (st_create_message_route (.error (.httpException status detail))).status = 400 ∧
    (st_create_call_route (.error (.httpException status detail))).status = 400 ∧
    (st_update_route (.error (.httpException status detail))).status = 400 ∧
    (st_delete_route (.error (.httpException status detail))).status = 400 :=
  ⟨rfl, rfl, rfl, rfl, rfl, rfl, rfl, rfl, rfl, rfl, rfl, rfl, rfl, rfl⟩

end MentorApp
